import Mathlib

/-!
Verification development for the Linux video-output core of the media-kit
repository (media_kit_video/linux): the triple-buffered producer/consumer
frame exchange in texture_gl.cc, the dedicated render thread in
gl_render_thread.cc, and the dimension policy in video_output.cc.

Modelling conventions.
 - The 64-bit sequence counters (guint64 producer_seq, display_seq, each
   slot seq) are modelled as unbounded naturals.  The code treats them as
   strictly monotone within an epoch and never wraps in any realistic run;
   where a property genuinely depends on the 64-bit width (the UINT64_MAX
   sentinel in select_write_buffer) the relevant bound appears as an
   explicit hypothesis.
 - guint32 fields keep the 32-bit truncation where the source performs a
   narrowing cast: the (guint32)required_width casts in
   texture_gl_check_and_resize are modelled as reduction modulo 2 ^ 32.
 - GPU objects are modelled by their observable handles: an FBO or texture
   is its GL name (a natural, 0 meaning none), an EGLImage is the fact that
   a valid image handle is present, an EGLSyncKHR fence is an optional
   fence identifier.  Results of GL object creation and of non-blocking
   fence polls are inputs (oracle records) since they come from the driver.
 - NUM_BUFFERS is the compile-time constant 3; the for-loops over the three
   slots are written as an explicit per-slot step function applied to the
   indices 0, 1, 2, exactly in source order.
 - Each operation of the exchange runs on one thread and the shared fields
   are plain fields of the state record; interleavings of the producer and
   consumer are the interleavings of whole operations, captured by the
   ReachTG step relation below.
-/

namespace MediaKit

/-! ## GLRenderThread (gl_render_thread.cc)

The queue of std::function tasks is modelled as a FIFO list of task
identifiers.  The stop_ flag is a field.  Blocking of PostAndWait until the
posted wrapper has run is modelled by the Boolean result of the call: the
call returns true exactly when its task either ran inline or was enqueued
for the worker (whose FIFO execution order is RunOrder). -/

structure RenderThreadState where
  stop : Bool
  tasks : List Nat
  deriving DecidableEq

namespace GLRenderThread

/-- GLRenderThread::Post: refuse when stop_ is set, otherwise append the
task to the FIFO and return true.  (The double-checked load of stop_ under
the queue mutex collapses to a single test in this sequential model.) -/
def Post (st : RenderThreadState) (t : Nat) : RenderThreadState × Bool :=
  if st.stop then (st, false)
  else ({ st with tasks := st.tasks ++ [t] }, true)

/-- The order in which GLRenderThread::Run executes queued tasks: strictly
front-to-back (FIFO). -/
def RunOrder (st : RenderThreadState) : List Nat := st.tasks

/-- GLRenderThread::PostAndWait.  Result: the state of the queue after the
call, the list of tasks this call executed inline on the calling thread,
and the Boolean return value.  is_current is the value of IsCurrentThread()
for the calling thread. -/
def PostAndWait (st : RenderThreadState) (is_current : Bool) (t : Nat) :
    RenderThreadState × List Nat × Bool :=
  if st.stop then (st, [], false)
  else if is_current then (st, [t], true)
  else
    let p := Post st t
    if p.2 then (p.1, [], true) else (p.1, [], false)

end GLRenderThread

/-! ## TextureGL data model (texture_gl.cc) -/

/-- One slot of the triple buffer (struct RenderBuffer). -/
structure RenderBuffer where
  /-- FBO name used for the decoder render (0 = none). -/
  fbo : Nat
  /-- color texture attached to the FBO (0 = none). -/
  texture : Nat
  /-- whether a valid EGLImage handle is present (egl_image != EGL_NO_IMAGE_KHR). -/
  egl_image : Bool
  /-- fence created after the render submission; none = EGL_NO_SYNC_KHR. -/
  render_sync : Option Nat
  /-- sequence number of the frame in this slot; 0 = empty. -/
  seq : Nat
  deriving DecidableEq

/-- The TextureGL instance state (struct _TextureGL).  buffers_inited
models the source field buffers_initialized. -/
structure TextureGL where
  flutter_textures : Fin 3 → Nat
  flutter_textures_valid : Fin 3 → Bool
  buffers : Fin 3 → RenderBuffer
  producer_seq : Nat
  display_seq : Nat
  consumer_seq : Nat
  write_index : Fin 3
  current_width : Nat
  current_height : Nat
  buffers_inited : Bool
  initialization_posted : Bool
  resizing : Bool

/-- texture_gl_init: the freshly constructed state. -/
def initialTextureGL : TextureGL where
  flutter_textures := fun _ => 0
  flutter_textures_valid := fun _ => false
  buffers := fun _ => { fbo := 0, texture := 0, egl_image := false, render_sync := none, seq := 0 }
  producer_seq := 1
  display_seq := 0
  consumer_seq := 0
  write_index := 0
  current_width := 1
  current_height := 1
  buffers_inited := false
  initialization_posted := false
  resizing := false

/-- The UINT64_MAX sentinel used to seed the minimum search in
select_write_buffer. -/
def UINT64_MAX : Nat := 2 ^ 64 - 1

/-- The (guint32) narrowing cast applied by texture_gl_check_and_resize to
its gint64 arguments (only ever reached for positive values). -/
def toU32 (x : Int) : Nat := x.toNat % 2 ^ 32

/-! ## texture_gl_check_and_resize -/

/-- Observable GL side effects of texture_gl_check_and_resize, recorded so
that the no-op paths can be stated exactly: the early returns perform no
fence wait, free nothing and allocate nothing. -/
inductive ResizeEvent
  /-- eglClientWaitSyncKHR with EGL_FOREVER_KHR on fence f, then destroy it. -/
  | fence_wait (f : Nat)
  /-- destroy the EGLImage/texture/FBO of slot i. -/
  | free_slot (i : Fin 3)
  /-- glGenFramebuffers/glGenTextures/eglCreateImageKHR for slot i. -/
  | alloc_slot (i : Fin 3)
  deriving DecidableEq

/-- Names handed out by the GL driver for one freshly allocated slot. -/
structure BufferAlloc where
  fbo : Nat
  texture : Nat
  egl_image : Bool
  deriving DecidableEq

/-- Body of the per-slot loop of texture_gl_check_and_resize: when this is
not the first allocation, wait on and destroy a live fence and free the old
slot resources; then allocate the fresh FBO/texture/EGLImage and clear the
slot fence.  (The slot seq is zeroed afterwards by a separate loop, as in
the source.) -/
def resize_slot_step (first_frame : Bool) (alloc : Fin 3 → BufferAlloc)
    (acc : (Fin 3 → RenderBuffer) × List ResizeEvent) (i : Fin 3) :
    (Fin 3 → RenderBuffer) × List ResizeEvent :=
  let bufs := acc.1
  let evs :=
    if first_frame then acc.2
    else
      (match (bufs i).render_sync with
       | some f => acc.2 ++ [ResizeEvent.fence_wait f]
       | none => acc.2) ++ [ResizeEvent.free_slot i]
  let a := alloc i
  (Function.update bufs i
      { fbo := a.fbo, texture := a.texture, egl_image := a.egl_image,
        render_sync := none, seq := (bufs i).seq },
   evs ++ [ResizeEvent.alloc_slot i])

/-- texture_gl_check_and_resize.  alloc supplies the driver results for the
three fresh slots.  Returns the state on return of the function together
with the list of GL events it performed.  The resizing flag is raised at
the start of the reallocation path and cleared again before returning, so
it reads false in the returned state. -/
def texture_gl_check_and_resize (s : TextureGL)
    (required_width required_height : Int) (alloc : Fin 3 → BufferAlloc) :
    TextureGL × List ResizeEvent :=
  if required_width < 1 ∨ required_height < 1 then (s, [])
  else
    let first_frame := ¬ s.buffers_inited
    let resize := s.current_width ≠ toU32 required_width ∨
                  s.current_height ≠ toU32 required_height
    if ¬ first_frame ∧ ¬ resize then (s, [])
    else
      let ff : Bool := decide first_frame
      let r0 := resize_slot_step ff alloc (s.buffers, []) 0
      let r1 := resize_slot_step ff alloc r0 1
      let r2 := resize_slot_step ff alloc r1 2
      let bufs := fun i => { r2.1 i with seq := 0 }
      ({ s with
          buffers := bufs,
          producer_seq := 1,
          display_seq := 0,
          consumer_seq := 0,
          write_index := 0,
          flutter_textures_valid := fun _ => false,
          buffers_inited := true,
          current_width := toU32 required_width,
          current_height := toU32 required_height,
          resizing := false },
       r2.2)

/-! ## select_write_buffer -/

/-- Body of the first loop of select_write_buffer: skip the slot whose seq
equals the display sequence (when that is nonzero), otherwise keep the slot
with the smallest seq seen so far.  The accumulator is (best_idx, min_seq),
with best_idx = none standing for the int value -1. -/
def swb_step (cds : Nat) (bseq : Nat) (i : Fin 3)
    (acc : Option (Fin 3) × Nat) : Option (Fin 3) × Nat :=
  if bseq = cds ∧ cds ≠ 0 then acc
  else if bseq < acc.2 then (some i, bseq) else acc

/-- The two loops of select_write_buffer over the sequence values a, b, c
loaded from the three slots and the display sequence d loaded once at
entry: first the minimum search seeded with UINT64_MAX, then, if it left
best_idx at -1, the first slot not protected by the display sequence. -/
def swb_core (a b c d : Nat) : Option (Fin 3) :=
  let a0 := swb_step d a 0 (none, UINT64_MAX)
  let a1 := swb_step d b 1 a0
  let a2 := swb_step d c 2 a1
  if a2.1 = none then
    if a ≠ d ∨ d = 0 then some 0
    else if b ≠ d ∨ d = 0 then some 1
    else if c ≠ d ∨ d = 0 then some 2
    else none
  else a2.1

/-- select_write_buffer: pick the next slot for the producer to write.
none models the int return value -1 (no safe slot). -/
def select_write_buffer (s : TextureGL) : Option (Fin 3) :=
  swb_core (s.buffers 0).seq (s.buffers 1).seq (s.buffers 2).seq s.display_seq

/-- A slot the producer may write: its sequence differs from the display
sequence, or nothing is being displayed.  This is the condition of the
fallback loop of select_write_buffer. -/
def swb_ok (s : TextureGL) (i : Fin 3) : Prop :=
  (s.buffers i).seq ≠ s.display_seq ∨ s.display_seq = 0

/-! ## texture_gl_render and texture_gl_swap_buffers -/

/-- External inputs of one texture_gl_render call.  mpv_render_result is
the int returned by mpv_render_context_render; the source discards it
(texture_gl.cc line 378 is a bare call), which is visible here as the field
being read nowhere.  new_fence is the result of eglCreateSyncKHR (none for
EGL_NO_SYNC_KHR). -/
structure RenderOracle where
  has_render_context : Bool
  mpv_render_result : Int
  new_fence : Option Nat

/-- texture_gl_render: select a write slot, record it in write_index,
destroy the stale fence of that slot, render the decoder frame into its
FBO, flush, and install the fresh fence.  Returns FALSE without touching
the slot when there is no render context, no safe slot, or the slot has no
FBO yet. -/
def texture_gl_render (s : TextureGL) (o : RenderOracle) : TextureGL × Bool :=
  if o.has_render_context = false then (s, false)
  else
    match select_write_buffer s with
    | none => (s, false)
    | some idx =>
      let s1 := { s with write_index := idx }
      if (s1.buffers idx).fbo = 0 then (s1, false)
      else
        let buf := { s1.buffers idx with render_sync := none }
        let buf := { buf with render_sync := o.new_fence }
        ({ s1 with buffers := Function.update s1.buffers idx buf }, true)

/-- texture_gl_swap_buffers: publish the just-rendered slot by storing the
next sequence number into it (fetch_add on producer_seq). -/
def texture_gl_swap_buffers (s : TextureGL) : TextureGL :=
  let wi := s.write_index
  let current_seq := s.producer_seq
  { s with
      producer_seq := current_seq + 1,
      buffers := Function.update s.buffers wi { s.buffers wi with seq := current_seq } }

/-! ## texture_gl_populate_texture -/

/-- GL_TEXTURE_2D, the constant target the callback always reports. -/
def GL_TEXTURE_2D : Nat := 3553

/-- External inputs of one texture_gl_populate_texture call.  fence_done
gives the result of the non-blocking eglClientWaitSyncKHR (timeout 0) for
each fence identifier at this instant: true = signaled, false =
EGL_TIMEOUT_EXPIRED_KHR.  req_width/req_height are what
video_output_get_width/height report for the first-call initialization
trigger; has_gl_thread is whether the render thread exists.
fresh_flutter_tex is the name glGenTextures would hand out for a
consumer-side texture bound during this call, and dummy_tex the name of the
function-static 1x1 dummy texture. -/
structure PollOracle where
  fence_done : Nat → Bool
  req_width : Int
  req_height : Int
  has_gl_thread : Bool
  fresh_flutter_tex : Nat
  dummy_tex : Nat

/-- The out-parameters of the populate callback together with its gboolean
return value. -/
structure PollResult where
  target : Nat
  name : Nat
  width : Nat
  height : Nat
  ret : Bool
  deriving DecidableEq

/-- First-call initialization trigger of texture_gl_populate_texture: on a
call before buffers exist and before a render task was posted, with
positive reported dimensions and a live render thread, mark the
initialization as posted (the posted task itself runs later on the render
thread). -/
def populate_post_init (s : TextureGL) (o : PollOracle) : TextureGL :=
  if ¬ s.initialization_posted ∧ ¬ s.buffers_inited ∧
     o.req_width > 0 ∧ o.req_height > 0 ∧ o.has_gl_thread
  then { s with initialization_posted := true } else s

/-- Body of the consumer scan loop: for a slot with a seq above the best
seen so far, poll its fence without blocking; when the fence is absent or
signaled, destroy it and take the slot as the new best candidate, otherwise
skip the slot.  The accumulator is (buffers, best_idx, best_seq), best_idx
= none standing for -1. -/
def poll_scan_step (o : PollOracle)
    (acc : (Fin 3 → RenderBuffer) × Option (Fin 3) × Nat) (i : Fin 3) :
    (Fin 3 → RenderBuffer) × Option (Fin 3) × Nat :=
  let bufs := acc.1
  let bseq := (bufs i).seq
  if bseq > acc.2.2 then
    match (bufs i).render_sync with
    | none => (bufs, some i, bseq)
    | some f =>
      if o.fence_done f then
        (Function.update bufs i { bufs i with render_sync := none }, some i, bseq)
      else acc
  else acc

/-- The whole consumer scan loop: the step applied to the slots 0, 1, 2 in
source order, starting from best_idx = -1 and best_seq = consumer_seq. -/
def poll_scan (bufs : Fin 3 → RenderBuffer) (cs : Nat) (o : PollOracle) :
    (Fin 3 → RenderBuffer) × Option (Fin 3) × Nat :=
  poll_scan_step o (poll_scan_step o (poll_scan_step o (bufs, none, cs) 0) 1) 2

/-- Whether the non-blocking fence check of the consumer scan reports a
slot as complete: no fence at all, or its zero-timeout poll succeeds. -/
def poll_ready (b : RenderBuffer) (o : PollOracle) : Bool :=
  match b.render_sync with
  | none => true
  | some f => o.fence_done f

/-- Body of the fallback display scan: the slot with the largest nonzero
seq, none when every slot is empty. -/
def display_max_step (bufs : Fin 3 → RenderBuffer)
    (acc : Option (Fin 3) × Nat) (i : Fin 3) : Option (Fin 3) × Nat :=
  if (bufs i).seq > acc.2 then (some i, (bufs i).seq) else acc

/-- The whole fallback display scan over the slots 0, 1, 2. -/
def display_scan (bufs : Fin 3 → RenderBuffer) : Option (Fin 3) × Nat :=
  display_max_step bufs (display_max_step bufs (display_max_step bufs (none, 0) 0) 1) 2

/-- The display index the consumer settles on: the scan winner when there
is one, else the slot with the largest nonzero seq, else slot 0. -/
def body_display_idx (s1 : TextureGL) (o : PollOracle) : Fin 3 :=
  (match (poll_scan s1.buffers s1.consumer_seq o).2.1 with
   | some i => some i
   | none => (display_scan (poll_scan s1.buffers s1.consumer_seq o).1).1).getD 0

/-- Main body of texture_gl_populate_texture once the resizing flag has
been found clear: scan for the newest completed frame, advance
consumer_seq, choose the display slot, publish display_seq, bind a
consumer-side texture to the slot image when needed, and emit the
out-parameters, falling back to the 1x1 dummy when the chosen slot has no
bound texture. -/
def populate_body (s1 : TextureGL) (o : PollOracle) : TextureGL × PollResult :=
  let scan := poll_scan s1.buffers s1.consumer_seq o
  let bufs := scan.1
  let best_idx := scan.2.1
  let best_seq := scan.2.2
  let consumer2 := if best_idx.isSome then best_seq else s1.consumer_seq
  let display_idx : Fin 3 := body_display_idx s1 o
  let selected_seq := (bufs display_idx).seq
  let display2 := if selected_seq > 0 then selected_seq else s1.display_seq
  let create_tex := ¬ s1.flutter_textures_valid display_idx ∧ (bufs display_idx).egl_image
  let ftex := if create_tex
    then Function.update s1.flutter_textures display_idx o.fresh_flutter_tex
    else s1.flutter_textures
  let fvalid := if create_tex
    then Function.update s1.flutter_textures_valid display_idx true
    else s1.flutter_textures_valid
  let s2 := { s1 with
      buffers := bufs, consumer_seq := consumer2, display_seq := display2,
      flutter_textures := ftex, flutter_textures_valid := fvalid }
  let out :=
    if ¬ fvalid display_idx ∨ ftex display_idx = 0 then
      { target := GL_TEXTURE_2D, name := o.dummy_tex, width := 1, height := 1, ret := true }
    else
      { target := GL_TEXTURE_2D, name := ftex display_idx,
        width := s1.current_width, height := s1.current_height, ret := true }
  (s2, out)

/-- texture_gl_populate_texture: the polled consumer callback. -/
def texture_gl_populate_texture (s : TextureGL) (o : PollOracle) :
    TextureGL × PollResult :=
  let s1 := populate_post_init s o
  if s1.resizing then
    (s1, { target := GL_TEXTURE_2D, name := o.dummy_tex, width := 1, height := 1, ret := true })
  else populate_body s1 o

/-! ## video_output.cc dimension policy -/

/-- Modelled from the spec: the hard-coded software-rendering maximum width.
The constant is defined in video_output.h, which is not among the sources
here; the spec fixes the SW maxima at 1920 by 1080. -/
def SW_RENDERING_MAX_WIDTH : Int := 1920

/-- Modelled from the spec: the hard-coded software-rendering maximum
height, 1080 (see SW_RENDERING_MAX_WIDTH). -/
def SW_RENDERING_MAX_HEIGHT : Int := 1080

/-- video_output_get_width.  fixed_width is the stored self width (nonzero
means a fixed size was configured); dw, dh, rotate are the integer fields
extracted from the decoder video-out-params map; texture_sw tells whether
the software path is active.  Division is C integer division on the
nonnegative quantities involved. -/
def video_output_get_width (fixed_width dw dh rotate : Int)
    (texture_sw : Bool) : Int :=
  if fixed_width ≠ 0 then fixed_width
  else
    let width := if rotate = 0 ∨ rotate = 180 then dw else dh
    let height := if rotate = 0 ∨ rotate = 180 then dh else dw
    if texture_sw then
      if width ≥ SW_RENDERING_MAX_WIDTH then SW_RENDERING_MAX_WIDTH
      else if height ≥ SW_RENDERING_MAX_HEIGHT then
        width / height * SW_RENDERING_MAX_HEIGHT
      else width
    else width

/-- video_output_get_height.  Note the source guards the fixed-size early
return of the height with self->width (not self->height), faithfully kept
here. -/
def video_output_get_height (fixed_width fixed_height dw dh rotate : Int)
    (texture_sw : Bool) : Int :=
  if fixed_width ≠ 0 then fixed_height
  else
    let width := if rotate = 0 ∨ rotate = 180 then dw else dh
    let height := if rotate = 0 ∨ rotate = 180 then dh else dw
    if texture_sw then
      if height ≥ SW_RENDERING_MAX_HEIGHT then SW_RENDERING_MAX_HEIGHT
      else if width ≥ SW_RENDERING_MAX_WIDTH then
        height / width * SW_RENDERING_MAX_WIDTH
      else height
    else height

/-! ## The render task (modelled from the spec) -/

/-- Modelled from the spec: the body of the render task that
video_output_notify_render posts to the render thread.  The definition of
video_output_notify_render lives in code that is not among these sources
(only its declaration and call sites are); per the spec data flow (section
2) and producer steps (section 4.4), the task sizes the pool for the
current dimensions, renders the frame into a write slot and, when the
render step succeeded, publishes the slot.  A frame whose render step
returned FALSE is discarded and not published. -/
def video_output_notify_render_task (s : TextureGL) (w h : Int)
    (alloc : Fin 3 → BufferAlloc) (o : RenderOracle) : TextureGL :=
  let s1 := (texture_gl_check_and_resize s w h alloc).1
  let r := texture_gl_render s1 o
  if r.2 then texture_gl_swap_buffers r.1 else r.1

/-! ## The step relation

One step is one whole operation of the producer (resize, render, publish)
or of the consumer (poll), each with arbitrary driver inputs; ReachTG is
the set of states reachable from the freshly constructed TextureGL.
Because every operation is atomic here, the relation covers every
interleaving of whole producer/consumer operations. -/

inductive ReachTG : TextureGL → Prop
  | init : ReachTG initialTextureGL
  | resize (s : TextureGL) (w h : Int) (alloc : Fin 3 → BufferAlloc) :
      ReachTG s → ReachTG (texture_gl_check_and_resize s w h alloc).1
  | render (s : TextureGL) (o : RenderOracle) :
      ReachTG s → ReachTG (texture_gl_render s o).1
  | swap (s : TextureGL) : ReachTG s → ReachTG (texture_gl_swap_buffers s)
  | poll (s : TextureGL) (o : PollOracle) :
      ReachTG s → ReachTG (texture_gl_populate_texture s o).1

/-- Sequence-number soundness: every slot sequence is below the next
sequence the producer will hand out, and no two distinct slots carry the
same nonzero sequence. -/
def SeqInv (s : TextureGL) : Prop :=
  (∀ i : Fin 3, (s.buffers i).seq < s.producer_seq) ∧
  (∀ i j : Fin 3, (s.buffers i).seq = (s.buffers j).seq →
    (s.buffers i).seq = 0 ∨ i = j)

/-- A slot the claims call a candidate of one consumer poll: strictly
newer than consumer_seq, and its non-blocking fence check does not time
out (or it has no fence at all). -/
def poll_cand (s : TextureGL) (o : PollOracle) (i : Fin 3) : Prop :=
  s.consumer_seq < (s.buffers i).seq ∧ poll_ready (s.buffers i) o = true

instance poll_cand_decidable (s : TextureGL) (o : PollOracle) (i : Fin 3) :
    Decidable (poll_cand s o i) :=
  inferInstanceAs (Decidable (_ ∧ _))

/-- The candidates a poll actually scans, in closed form: a candidate
whose sequence exceeds the sequence of every earlier-indexed candidate.
The running best of the scan loop always equals the largest candidate
sequence seen so far, so these are exactly the slots whose seq beats the
running best and whose fence check is performed and succeeds - the
completed candidates the loop polls.  A completed candidate whose seq is
at most an earlier candidate's is skipped without a fence check. -/
def poll_accepted (s : TextureGL) (o : PollOracle) (i : Fin 3) : Prop :=
  poll_cand s o i ∧
  ∀ j : Fin 3, j < i → poll_cand s o j → (s.buffers j).seq < (s.buffers i).seq

instance poll_accepted_decidable (s : TextureGL) (o : PollOracle) (i : Fin 3) :
    Decidable (poll_accepted s o i) :=
  inferInstanceAs (Decidable (_ ∧ _))

/-! ## Concrete sample data for witnesses -/

/-- Driver results for a concrete allocation: nonzero FBO and texture
names, valid images. -/
def allocA : Fin 3 → BufferAlloc := fun i => { fbo := 5 + i.val, texture := 8 + i.val, egl_image := true }

/-- A successful concrete render: context present, decoder render returns
0, fence 21 created. -/
def renderOkO : RenderOracle := { has_render_context := true, mpv_render_result := 0, new_fence := some 21 }

/-- A concrete render whose decoder call fails (nonzero return). -/
def renderFailO : RenderOracle := { has_render_context := true, mpv_render_result := 1, new_fence := some 21 }

/-- A concrete poll: every fence reads signaled, reported size 640 x 360,
render thread alive, fresh consumer texture 31, dummy texture 2. -/
def pollA : PollOracle :=
  { fence_done := fun _ => true, req_width := 640, req_height := 360,
    has_gl_thread := true, fresh_flutter_tex := 31, dummy_tex := 2 }

/-- The pool right after its first allocation at 640 x 360: buffers exist,
nothing published yet. -/
def freshPool : TextureGL := (texture_gl_check_and_resize initialTextureGL 640 360 allocA).1

/-- One frame rendered, published and consumed on top of freshPool: the
consumer displays sequence 1 held by slot 0. -/
def demoState : TextureGL :=
  (texture_gl_populate_texture
    (texture_gl_swap_buffers
      (texture_gl_render freshPool renderOkO).1)
    pollA).1

/-- Buffers of a mid-stream scene: slot 0 holds frame 3 behind a signaled
fence, slot 1 holds frame 5 behind a still-pending fence, slot 2 is empty. -/
def scanDemoBufs : Fin 3 → RenderBuffer := ![
  { fbo := 5, texture := 8, egl_image := true, render_sync := some 10, seq := 3 },
  { fbo := 6, texture := 9, egl_image := true, render_sync := some 11, seq := 5 },
  { fbo := 7, texture := 10, egl_image := true, render_sync := none, seq := 0 }]

/-- A mid-stream consumer state over scanDemoBufs: frames up to 2 consumed,
frame 3 on display. -/
def scanDemoState : TextureGL :=
  { initialTextureGL with
      buffers := scanDemoBufs, consumer_seq := 2, display_seq := 3,
      producer_seq := 6, buffers_inited := true, initialization_posted := true,
      current_width := 640, current_height := 360 }

/-- A poll during which fence 10 reads signaled and fence 11 still pends. -/
def pollB : PollOracle :=
  { fence_done := fun f => f == 10, req_width := 640, req_height := 360,
    has_gl_thread := true, fresh_flutter_tex := 31, dummy_tex := 2 }

/-- Buffers with ascending published frames 5 then 10, each behind its own
fence: the scan polls and accepts both in turn. -/
def ascDemoBufs : Fin 3 → RenderBuffer := ![
  { fbo := 5, texture := 8, egl_image := true, render_sync := some 12, seq := 5 },
  { fbo := 6, texture := 9, egl_image := true, render_sync := some 13, seq := 10 },
  { fbo := 7, texture := 10, egl_image := true, render_sync := none, seq := 0 }]

/-- A cold consumer over ascDemoBufs: nothing consumed yet. -/
def ascDemoState : TextureGL :=
  { initialTextureGL with
      buffers := ascDemoBufs, consumer_seq := 0, display_seq := 0,
      producer_seq := 11, buffers_inited := true, initialization_posted := true,
      current_width := 640, current_height := 360 }

/-- A poll during which every fence reads signaled. -/
def pollC : PollOracle :=
  { fence_done := fun _ => true, req_width := 640, req_height := 360,
    has_gl_thread := true, fresh_flutter_tex := 31, dummy_tex := 2 }

/-! ## Properties of select_write_buffer -/

set_option maxHeartbeats 1000000 in
/-- Any index returned by the scan satisfies the write-permission
condition of the fallback loop. -/
theorem swb_core_some_ok (a b c d : Nat) (i : Fin 3)
    (h : swb_core a b c d = some i) :
    (i = 0 → (a ≠ d ∨ d = 0)) ∧ (i = 1 → (b ≠ d ∨ d = 0)) ∧
    (i = 2 → (c ≠ d ∨ d = 0)) := by
  unfold swb_core swb_step at h
  dsimp only at h
  split_ifs at h <;> simp_all <;> omega

set_option maxHeartbeats 1600000 in
/-- When every sequence is below the UINT64_MAX sentinel, the returned
index carries the smallest sequence among the permitted slots. -/
theorem swb_core_some_min (a b c d : Nat) (i : Fin 3)
    (ha : a < UINT64_MAX) (hb : b < UINT64_MAX) (hc : c < UINT64_MAX)
    (h : swb_core a b c d = some i) :
    ((i = 0 → ((a ≠ d ∨ d = 0) ∧ (b ≠ d ∨ d = 0 → a ≤ b) ∧ (c ≠ d ∨ d = 0 → a ≤ c))) ∧
     (i = 1 → ((b ≠ d ∨ d = 0) ∧ (a ≠ d ∨ d = 0 → b ≤ a) ∧ (c ≠ d ∨ d = 0 → b ≤ c))) ∧
     (i = 2 → ((c ≠ d ∨ d = 0) ∧ (a ≠ d ∨ d = 0 → c ≤ a) ∧ (b ≠ d ∨ d = 0 → c ≤ b)))) := by
  unfold swb_core swb_step at h
  dsimp only at h
  split_ifs at h <;> simp_all <;> omega

set_option maxHeartbeats 1000000 in
/-- The scan reports -1 only when no slot at all is permitted. -/
theorem swb_core_none (a b c d : Nat)
    (h : swb_core a b c d = none) :
    ¬ (a ≠ d ∨ d = 0) ∧ ¬ (b ≠ d ∨ d = 0) ∧ ¬ (c ≠ d ∨ d = 0) := by
  unfold swb_core swb_step at h
  dsimp only at h
  split_ifs at h <;> simp_all

/-- State-level form of swb_core_some_ok. -/
theorem select_some_ok (s : TextureGL) (i : Fin 3)
    (h : select_write_buffer s = some i) : swb_ok s i := by
  unfold select_write_buffer at h
  have hc := swb_core_some_ok (s.buffers 0).seq (s.buffers 1).seq
    (s.buffers 2).seq s.display_seq i h
  unfold swb_ok
  fin_cases i
  · exact hc.1 rfl
  · exact hc.2.1 rfl
  · exact hc.2.2 rfl

/-! ## Sequence-number invariant along the step relation -/

/-- texture_gl_render changes no sequence field: neither producer_seq nor
any slot seq. -/
theorem render_fields (s : TextureGL) (o : RenderOracle) :
    (texture_gl_render s o).1.producer_seq = s.producer_seq ∧
    (∀ i : Fin 3, ((texture_gl_render s o).1.buffers i).seq = (s.buffers i).seq) := by
  unfold texture_gl_render
  split_ifs with h1
  · exact ⟨rfl, fun i => rfl⟩
  · cases hsel : select_write_buffer s with
    | none => simp [hsel]
    | some idx =>
      simp only [hsel]
      split_ifs with h2
      · exact ⟨rfl, fun i => rfl⟩
      · refine ⟨rfl, fun i => ?_⟩
        by_cases hii : i = idx
        · subst hii; simp [Function.update_apply]
        · simp [Function.update_apply, hii]

/-- The consumer scan step rewrites only fences, never a slot sequence. -/
theorem poll_scan_step_seq (o : PollOracle)
    (acc : (Fin 3 → RenderBuffer) × Option (Fin 3) × Nat) (i j : Fin 3) :
    ((poll_scan_step o acc i).1 j).seq = (acc.1 j).seq := by
  unfold poll_scan_step
  dsimp only
  split_ifs with h1
  · cases hs : (acc.1 i).render_sync with
    | none => simp [hs]
    | some f =>
      simp only [hs]
      split_ifs with h2
      · by_cases hij : j = i
        · subst hij; simp [Function.update_apply]
        · simp [Function.update_apply, hij]
      · rfl
  · rfl

/-- The whole consumer scan never rewrites a slot sequence. -/
theorem poll_scan_seq (bufs : Fin 3 → RenderBuffer) (cs : Nat) (o : PollOracle)
    (j : Fin 3) : ((poll_scan bufs cs o).1 j).seq = (bufs j).seq := by
  unfold poll_scan
  rw [poll_scan_step_seq, poll_scan_step_seq, poll_scan_step_seq]

/-- populate_body changes neither producer_seq nor any slot sequence. -/
theorem populate_body_fields (s1 : TextureGL) (o : PollOracle) :
    (populate_body s1 o).1.producer_seq = s1.producer_seq ∧
    (∀ j : Fin 3, ((populate_body s1 o).1.buffers j).seq = (s1.buffers j).seq) := by
  unfold populate_body
  dsimp only
  exact ⟨rfl, fun j => poll_scan_seq _ _ _ j⟩

/-- texture_gl_populate_texture changes neither producer_seq nor any slot
sequence. -/
theorem populate_fields (s : TextureGL) (o : PollOracle) :
    (texture_gl_populate_texture s o).1.producer_seq = s.producer_seq ∧
    (∀ j : Fin 3, ((texture_gl_populate_texture s o).1.buffers j).seq = (s.buffers j).seq) := by
  unfold texture_gl_populate_texture populate_post_init
  dsimp only
  split_ifs with h1 h2 h3
  · exact ⟨rfl, fun j => rfl⟩
  · exact populate_body_fields _ o
  · exact ⟨rfl, fun j => rfl⟩
  · exact populate_body_fields _ o

/-- The reallocation path restores the invariant outright; the early
returns keep the state. -/
theorem resize_seqInv (s : TextureGL) (w h : Int) (alloc : Fin 3 → BufferAlloc)
    (hI : SeqInv s) : SeqInv (texture_gl_check_and_resize s w h alloc).1 := by
  unfold texture_gl_check_and_resize
  dsimp only
  split_ifs with h1 h2
  · exact hI
  · exact hI
  · constructor
    · intro i; simp
    · intro i j _; left; simp

/-- Publishing a frame preserves the invariant: the fresh sequence is
strictly larger than every stored one. -/
theorem swap_seqInv (s : TextureGL) (hI : SeqInv s) :
    SeqInv (texture_gl_swap_buffers s) := by
  obtain ⟨h1, h2⟩ := hI
  unfold texture_gl_swap_buffers
  dsimp only
  constructor
  · intro i
    dsimp only
    by_cases hi : i = s.write_index
    · subst hi
      rw [Function.update_same]
      exact Nat.lt_succ_self _
    · rw [Function.update_noteq hi]
      exact Nat.lt_succ_of_lt (h1 i)
  · intro i j heq
    dsimp only at heq ⊢
    by_cases hi : i = s.write_index <;> by_cases hj : j = s.write_index
    · subst hi; subst hj; right; rfl
    · subst hi
      rw [Function.update_same, Function.update_noteq hj] at heq
      dsimp only at heq
      have := h1 j
      exfalso; omega
    · subst hj
      rw [Function.update_same, Function.update_noteq hi] at heq
      dsimp only at heq
      have := h1 i
      exfalso; omega
    · rw [Function.update_noteq hi, Function.update_noteq hj] at heq
      rw [Function.update_noteq hi]
      exact h2 i j heq

/-- Every reachable state of the exchange satisfies the sequence-number
invariant. -/
theorem reach_seqInv (s : TextureGL) (h : ReachTG s) : SeqInv s := by
  induction h with
  | init => constructor <;> decide
  | resize s w hh alloc _ ih => exact resize_seqInv s w hh alloc ih
  | render s o _ ih =>
      obtain ⟨hp, hb⟩ := render_fields s o
      exact ⟨fun i => by rw [hb i, hp]; exact ih.1 i,
             fun i j e => by rw [hb i, hb j] at e; rw [hb i]; exact ih.2 i j e⟩
  | swap s _ ih => exact swap_seqInv s ih
  | poll s o _ ih =>
      obtain ⟨hp, hb⟩ := populate_fields s o
      exact ⟨fun i => by rw [hb i, hp]; exact ih.1 i,
             fun i j e => by rw [hb i, hb j] at e; rw [hb i]; exact ih.2 i j e⟩

/-! ## Claim C1 -/

/-- C1: Display protection.  In every reachable state of the
producer/consumer step relation with a nonzero display sequence,
select_write_buffer never returns the index of a slot whose sequence
equals display_seq; hence over all interleavings of whole producer and
consumer operations the displayed slot is never chosen as the next write
slot. -/
theorem c1_display_protection (s : TextureGL) (hreach : ReachTG s)
    (hd : s.display_seq ≠ 0) (i : Fin 3)
    (hsel : select_write_buffer s = some i) :
    (s.buffers i).seq ≠ s.display_seq := by
  rcases select_some_ok s i hsel with hq | hq
  · exact hq
  · exact absurd hq hd

/-- Witness for C1 at a concrete reachable state: after allocation, one
published frame and one consumer poll, display_seq = 1 is held by slot 0
and the producer selects slot 1, whose sequence 0 differs from 1. -/
theorem c1_display_protection_witness :
    (demoState.buffers 1).seq ≠ demoState.display_seq :=
  c1_display_protection demoState
    (ReachTG.poll _ _ (ReachTG.swap _ (ReachTG.render _ _
      (ReachTG.resize _ _ _ _ ReachTG.init))))
    (by decide) 1 (by decide)

/-! ## Claim C2 -/

/-- C2: Write-slot choice.  In any reachable state (with the producer
counter inside its 64-bit range, as on the real machine),
select_write_buffer returns some index i - never -1 - such that slot i is
permitted (its seq differs from display_seq, or display_seq = 0) and its
seq is smallest among all permitted slots. -/
theorem c2_write_slot_choice (s : TextureGL) (hreach : ReachTG s)
    (hbound : s.producer_seq ≤ UINT64_MAX) :
    ∃ i : Fin 3, select_write_buffer s = some i ∧ swb_ok s i ∧
      ∀ j : Fin 3, swb_ok s j → (s.buffers i).seq ≤ (s.buffers j).seq := by
  obtain ⟨hlt, hdist⟩ := reach_seqInv s hreach
  have hb0 : (s.buffers 0).seq < UINT64_MAX := lt_of_lt_of_le (hlt 0) hbound
  have hb1 : (s.buffers 1).seq < UINT64_MAX := lt_of_lt_of_le (hlt 1) hbound
  have hb2 : (s.buffers 2).seq < UINT64_MAX := lt_of_lt_of_le (hlt 2) hbound
  have hq : swb_ok s 0 ∨ swb_ok s 1 := by
    unfold swb_ok
    by_cases hd : s.display_seq = 0
    · exact Or.inl (Or.inr hd)
    · by_cases h0 : (s.buffers 0).seq = s.display_seq
      · by_cases h1 : (s.buffers 1).seq = s.display_seq
        · exfalso
          rcases hdist 0 1 (h0.trans h1.symm) with hz | hz
          · exact hd (h0.symm.trans hz)
          · simp at hz
        · exact Or.inr (Or.inl h1)
      · exact Or.inl (Or.inl h0)
  rcases hsel : select_write_buffer s with _ | i
  · exfalso
    unfold select_write_buffer at hsel
    have hn := swb_core_none _ _ _ _ hsel
    unfold swb_ok at hq
    rcases hq with hq | hq
    · exact hn.1 hq
    · exact hn.2.1 hq
  · refine ⟨i, rfl, select_some_ok s i hsel, ?_⟩
    unfold select_write_buffer at hsel
    have hmin := swb_core_some_min _ _ _ _ i hb0 hb1 hb2 hsel
    intro j hj
    unfold swb_ok at hj
    fin_cases i
    · have hi := hmin.1 rfl
      fin_cases j
      · exact le_refl _
      · exact hi.2.1 hj
      · exact hi.2.2 hj
    · have hi := hmin.2.1 rfl
      fin_cases j
      · exact hi.2.1 hj
      · exact le_refl _
      · exact hi.2.2 hj
    · have hi := hmin.2.2 rfl
      fin_cases j
      · exact hi.2.1 hj
      · exact hi.2.2 hj
      · exact le_refl _

/-- Witness for C2 at the concrete reachable state demoState. -/
theorem c2_write_slot_choice_witness :
    ∃ i : Fin 3, select_write_buffer demoState = some i ∧ swb_ok demoState i ∧
      ∀ j : Fin 3, swb_ok demoState j →
        (demoState.buffers i).seq ≤ (demoState.buffers j).seq :=
  c2_write_slot_choice demoState
    (ReachTG.poll _ _ (ReachTG.swap _ (ReachTG.render _ _
      (ReachTG.resize _ _ _ _ ReachTG.init))))
    (by decide)

/-! ## Claim C10 -/

/-- C10: Degenerate-dimension guard.  For every state, calling
texture_gl_check_and_resize with a width or height below 1 returns at once
with the state unchanged and no GL event performed (nothing freed,
allocated or waited on, no counter reset, resizing never raised). -/
theorem c10_degenerate_guard (s : TextureGL) (w h : Int)
    (alloc : Fin 3 → BufferAlloc) (hdeg : w < 1 ∨ h < 1) :
    texture_gl_check_and_resize s w h alloc = (s, []) := by
  unfold texture_gl_check_and_resize
  rw [if_pos hdeg]

/-- Witness for C10: width 0 on an initialized pool is a strict no-op. -/
theorem c10_degenerate_guard_witness :
    texture_gl_check_and_resize freshPool 0 360 allocA = (freshPool, []) :=
  c10_degenerate_guard freshPool 0 360 allocA (Or.inl (by decide))

/-! ## Claim C8 -/

/-- C8: Idempotent resize.  When the pool is initialized and the requested
dimensions equal the current ones (the guint32 dimensions being in 32-bit
range, as they are by type), texture_gl_check_and_resize is a no-op: the
state is returned unchanged and no GL event happens - in particular no
fence wait and no reallocation. -/
theorem c8_idempotent_resize (s : TextureGL) (w h : Int)
    (alloc : Fin 3 → BufferAlloc)
    (hinit : s.buffers_inited = true)
    (hw : w = (s.current_width : Int)) (hh : h = (s.current_height : Int))
    (hbw : s.current_width < 2 ^ 32) (hbh : s.current_height < 2 ^ 32) :
    texture_gl_check_and_resize s w h alloc = (s, []) := by
  have e1 : toU32 w = s.current_width := by unfold toU32; subst hw; omega
  have e2 : toU32 h = s.current_height := by unfold toU32; subst hh; omega
  unfold texture_gl_check_and_resize
  by_cases h1 : w < 1 ∨ h < 1
  · rw [if_pos h1]
  · rw [if_neg h1]
    dsimp only
    split_ifs with h2
    · rfl
    · exfalso
      apply h2
      refine ⟨fun hn => hn hinit, fun hr => ?_⟩
      rcases hr with hr | hr
      · exact hr e1.symm
      · exact hr e2.symm

/-- Witness for C8: re-requesting 640 x 360 on the already 640 x 360 pool
changes nothing and performs no GL work. -/
theorem c8_idempotent_resize_witness :
    texture_gl_check_and_resize freshPool 640 360 allocA = (freshPool, []) :=
  c8_idempotent_resize freshPool 640 360 allocA (by decide) (by decide)
    (by decide) (by decide) (by decide)

/-! ## Claim C6 -/

/-- C6 (amended): Epoch reset on resize.  Whenever
texture_gl_check_and_resize actually reallocates (first frame or changed
dimensions, both requested dimensions at least 1), on return every slot
seq is 0, producer_seq = 1, display_seq = 0, consumer_seq = 0, write_index
= 0, every consumer-side Flutter texture cache entry is invalidated, the
stored dimensions equal the requested ones reduced modulo 2 ^ 32 (the
guint32 narrowing the source applies; equal to the request whenever it
fits in 32 bits), and buffers_initialized is true. -/
theorem c6_epoch_reset (s : TextureGL) (w h : Int) (alloc : Fin 3 → BufferAlloc)
    (hw : 1 ≤ w) (hh : 1 ≤ h)
    (htrig : s.buffers_inited = false ∨ s.current_width ≠ toU32 w ∨
             s.current_height ≠ toU32 h) :
    (∀ i : Fin 3, ((texture_gl_check_and_resize s w h alloc).1.buffers i).seq = 0) ∧
    (texture_gl_check_and_resize s w h alloc).1.producer_seq = 1 ∧
    (texture_gl_check_and_resize s w h alloc).1.display_seq = 0 ∧
    (texture_gl_check_and_resize s w h alloc).1.consumer_seq = 0 ∧
    (texture_gl_check_and_resize s w h alloc).1.write_index = 0 ∧
    (∀ i : Fin 3, (texture_gl_check_and_resize s w h alloc).1.flutter_textures_valid i = false) ∧
    (texture_gl_check_and_resize s w h alloc).1.current_width = toU32 w ∧
    (texture_gl_check_and_resize s w h alloc).1.current_height = toU32 h ∧
    (texture_gl_check_and_resize s w h alloc).1.buffers_inited = true := by
  unfold texture_gl_check_and_resize
  rw [if_neg (by omega : ¬ (w < 1 ∨ h < 1))]
  dsimp only
  rw [if_neg ?hguard]
  case hguard =>
    rintro ⟨hnf, hnr⟩
    rcases htrig with ht | ht | ht
    · exact hnf (by rw [ht]; exact Bool.false_ne_true)
    · exact hnr (Or.inl ht)
    · exact hnr (Or.inr ht)
  exact ⟨fun i => rfl, rfl, rfl, rfl, rfl, fun i => rfl, rfl, rfl, rfl⟩

/-- Witness for C6 at a concrete resize of the 640 x 360 pool to
1280 x 720. -/
theorem c6_epoch_reset_witness :
    (∀ i : Fin 3, ((texture_gl_check_and_resize freshPool 1280 720 allocA).1.buffers i).seq = 0) ∧
    (texture_gl_check_and_resize freshPool 1280 720 allocA).1.producer_seq = 1 ∧
    (texture_gl_check_and_resize freshPool 1280 720 allocA).1.display_seq = 0 ∧
    (texture_gl_check_and_resize freshPool 1280 720 allocA).1.consumer_seq = 0 ∧
    (texture_gl_check_and_resize freshPool 1280 720 allocA).1.write_index = 0 ∧
    (∀ i : Fin 3, (texture_gl_check_and_resize freshPool 1280 720 allocA).1.flutter_textures_valid i = false) ∧
    (texture_gl_check_and_resize freshPool 1280 720 allocA).1.current_width = toU32 1280 ∧
    (texture_gl_check_and_resize freshPool 1280 720 allocA).1.current_height = toU32 720 ∧
    (texture_gl_check_and_resize freshPool 1280 720 allocA).1.buffers_inited = true :=
  c6_epoch_reset freshPool 1280 720 allocA (by decide) (by decide)
    (Or.inr (Or.inl (by decide)))

/-- Counterexample to C6 as literally stated: a requested width of 2 ^ 32
(a legal gint64 at least 1) triggers reallocation, yet the stored
current_width is the truncated guint32 value 0, not the requested
dimension. -/
theorem c6_counterexample :
    (1 : Int) ≤ 2 ^ 32 ∧ (1 : Int) ≤ 1 ∧
    initialTextureGL.buffers_inited = false ∧
    (texture_gl_check_and_resize initialTextureGL (2 ^ 32) 1 allocA).1.buffers_inited = true ∧
    (texture_gl_check_and_resize initialTextureGL (2 ^ 32) 1 allocA).1.current_width = 0 ∧
    ((texture_gl_check_and_resize initialTextureGL (2 ^ 32) 1 allocA).1.current_width : Int) ≠ 2 ^ 32 := by
  decide

/-! ## Claim C9 -/

/-- C9: Re-entrant PostAndWait.  Before shutdown, a PostAndWait from the
render thread itself runs the task inline at once - the queue is untouched,
so it is not ordered behind queued tasks - and returns true; from any other
thread the task is appended behind all queued tasks, the worker FIFO runs
it after them, and the call returns true (the return models the completed
blocking wait for the posted wrapper). -/
theorem c9_post_and_wait (st : RenderThreadState) (t : Nat)
    (hstop : st.stop = false) :
    GLRenderThread.PostAndWait st true t = (st, [t], true) ∧
    GLRenderThread.PostAndWait st false t =
      ({ st with tasks := st.tasks ++ [t] }, [], true) ∧
    GLRenderThread.RunOrder { st with tasks := st.tasks ++ [t] } =
      st.tasks ++ [t] := by
  unfold GLRenderThread.PostAndWait GLRenderThread.Post GLRenderThread.RunOrder
  rw [hstop]
  exact ⟨rfl, rfl, rfl⟩

/-- Witness for C9 on a live thread with two queued tasks. -/
theorem c9_post_and_wait_witness :
    GLRenderThread.PostAndWait { stop := false, tasks := [7, 8] } true 9 =
      ({ stop := false, tasks := [7, 8] }, [9], true) ∧
    GLRenderThread.PostAndWait { stop := false, tasks := [7, 8] } false 9 =
      ({ stop := false, tasks := [7, 8, 9] }, [], true) ∧
    GLRenderThread.RunOrder { stop := false, tasks := [7, 8, 9] } = [7, 8, 9] :=
  c9_post_and_wait { stop := false, tasks := [7, 8] } 9 rfl

/-! ## Claim C4 -/

/-- C4: evaluation of the software dimension clamp at the failing inputs.
For a 4000 x 3000 source under maxima 1920 x 1080 the code returns
1920 x 1080 - the width check fires first and ignores the aspect ratio
(1920 * 3000 differs from 4000 * 1080), where the claim and the comment in
the source promise the aspect-preserving 1440 x 1080.  For a 1000 x 2000
source the integer division width / height truncates to 0, so the reported
width is 0. -/
theorem c4_sw_clamp_eval :
    video_output_get_width 0 4000 3000 0 true = 1920 ∧
    video_output_get_height 0 0 4000 3000 0 true = 1080 ∧
    (1920 : Int) * 3000 ≠ 4000 * 1080 ∧
    video_output_get_width 0 1000 2000 0 true = 0 := by
  decide

/-! ## Claim C5 -/

/-- C5 (amended): a frame is discarded - the render task publishes
nothing, leaving producer_seq and every slot sequence at their post-ensure
values - exactly when texture_gl_render itself returns FALSE (no render
context, no safe slot, or the slot has no FBO).  The return value of
mpv_render_context_render is ignored by texture_gl_render, so a decoder
render failure never causes a discard. -/
theorem c5_render_failure_discard (s : TextureGL) (w h : Int)
    (alloc : Fin 3 → BufferAlloc) (o : RenderOracle)
    (hfail : (texture_gl_render (texture_gl_check_and_resize s w h alloc).1 o).2 = false) :
    ((video_output_notify_render_task s w h alloc o).producer_seq =
      (texture_gl_check_and_resize s w h alloc).1.producer_seq ∧
     ∀ i : Fin 3, ((video_output_notify_render_task s w h alloc o).buffers i).seq =
      ((texture_gl_check_and_resize s w h alloc).1.buffers i).seq) ∧
    (∀ r : Int, texture_gl_render (texture_gl_check_and_resize s w h alloc).1
        { o with mpv_render_result := r } =
      texture_gl_render (texture_gl_check_and_resize s w h alloc).1 o) := by
  constructor
  · unfold video_output_notify_render_task
    dsimp only
    simp only [hfail, Bool.false_eq_true, if_false]
    exact ⟨(render_fields _ o).1, (render_fields _ o).2⟩
  · intro r
    cases o
    rfl

/-- Witness for C5 (amended) at a concrete discarded frame: on the
uninitialized pool the selected slot has FBO 0, texture_gl_render returns
FALSE, and the task leaves producer_seq alone. -/
theorem c5_render_failure_discard_witness :
    (video_output_notify_render_task initialTextureGL 0 0 allocA renderOkO).producer_seq =
      (texture_gl_check_and_resize initialTextureGL 0 0 allocA).1.producer_seq :=
  (c5_render_failure_discard initialTextureGL 0 0 allocA renderOkO (by decide)).1.1

/-- Counterexample to C5 as literally stated: with the pool allocated and
the decoder render call failing (nonzero mpv_render_result), the render
task still publishes the frame - producer_seq advances from 1 to 2 and
slot 0 receives sequence 1 - because texture_gl_render discards the return
value of mpv_render_context_render. -/
theorem c5_counterexample :
    renderFailO.mpv_render_result ≠ 0 ∧
    freshPool.producer_seq = 1 ∧
    (video_output_notify_render_task freshPool 640 360 allocA renderFailO).producer_seq = 2 ∧
    ((video_output_notify_render_task freshPool 640 360 allocA renderFailO).buffers 0).seq = 1 := by
  decide

/-! ## Claim C7 -/

/-- populate_body always answers TRUE, and reports either the current
dimensions or the 1 x 1 dummy. -/
theorem populate_body_out (s1 : TextureGL) (o : PollOracle) :
    (populate_body s1 o).2.ret = true ∧
    (((populate_body s1 o).2.width = s1.current_width ∧
      (populate_body s1 o).2.height = s1.current_height) ∨
     (populate_body s1 o).2 =
       { target := GL_TEXTURE_2D, name := o.dummy_tex, width := 1, height := 1, ret := true }) := by
  unfold populate_body
  dsimp only
  split_ifs <;>
    first
      | exact ⟨rfl, Or.inr rfl⟩
      | exact ⟨rfl, Or.inl ⟨rfl, rfl⟩⟩

/-- C7 (amended): texture_gl_populate_texture returns TRUE on every input
state.  When resizing it returns the 1 x 1 dummy texture and leaves the
consumer state (buffers, consumer_seq, display_seq and the Flutter texture
cache) unchanged.  Otherwise it reports either the current width and
height, or - when the chosen slot has no bound Flutter texture, in
particular before the pool exists - the 1 x 1 dummy.  (A state with
allocated but never-published buffers yields a real texture at full size,
not the dummy; see the counterexample.)  It never returns FALSE. -/
theorem c7_populate_total (s : TextureGL) (o : PollOracle) :
    (texture_gl_populate_texture s o).2.ret = true ∧
    (s.resizing = true →
      (texture_gl_populate_texture s o).2 =
        { target := GL_TEXTURE_2D, name := o.dummy_tex, width := 1, height := 1, ret := true } ∧
      (texture_gl_populate_texture s o).1.buffers = s.buffers ∧
      (texture_gl_populate_texture s o).1.consumer_seq = s.consumer_seq ∧
      (texture_gl_populate_texture s o).1.display_seq = s.display_seq ∧
      (texture_gl_populate_texture s o).1.flutter_textures = s.flutter_textures ∧
      (texture_gl_populate_texture s o).1.flutter_textures_valid = s.flutter_textures_valid) ∧
    (s.resizing = false →
      ((texture_gl_populate_texture s o).2.width = s.current_width ∧
       (texture_gl_populate_texture s o).2.height = s.current_height) ∨
      (texture_gl_populate_texture s o).2 =
        { target := GL_TEXTURE_2D, name := o.dummy_tex, width := 1, height := 1, ret := true }) := by
  unfold texture_gl_populate_texture populate_post_init
  dsimp only
  split_ifs with h1 h2 h3
  · exact ⟨rfl,
      fun _ => ⟨rfl, rfl, rfl, rfl, rfl, rfl⟩,
      fun hrf => absurd h2 (by rw [hrf]; exact Bool.false_ne_true)⟩
  · exact ⟨(populate_body_out _ o).1,
      fun hrt => absurd hrt h2,
      fun _ => (populate_body_out _ o).2⟩
  · exact ⟨rfl,
      fun _ => ⟨rfl, rfl, rfl, rfl, rfl, rfl⟩,
      fun hrf => absurd h3 (by rw [hrf]; exact Bool.false_ne_true)⟩
  · exact ⟨(populate_body_out _ o).1,
      fun hrt => absurd hrt h3,
      fun _ => (populate_body_out _ o).2⟩

/-- Witness for C7 (amended): a poll on a live displaying state answers
TRUE, and on a mid-resize state it answers the dummy. -/
theorem c7_populate_total_witness :
    (texture_gl_populate_texture demoState pollA).2.ret = true ∧
    ((texture_gl_populate_texture demoState pollA).2.width = demoState.current_width ∧
     (texture_gl_populate_texture demoState pollA).2.height = demoState.current_height) ∨
    (texture_gl_populate_texture demoState pollA).2 =
      { target := GL_TEXTURE_2D, name := pollA.dummy_tex, width := 1, height := 1, ret := true } := by
  rcases (c7_populate_total demoState pollA).2.2 (by decide) with hc | hc
  · exact Or.inl ⟨(c7_populate_total demoState pollA).1, hc.1, hc.2⟩
  · exact Or.inr hc

/-- Counterexample to C7 as literally stated: in the reachable state
freshPool no frame has ever been published (every slot sequence is 0 and
nothing was consumed), yet the callback does not return the 1 x 1 dummy -
it binds the freshly allocated slot image and reports the full 640 x 360
size. -/
theorem c7_counterexample :
    freshPool.resizing = false ∧
    (∀ i : Fin 3, (freshPool.buffers i).seq = 0) ∧
    freshPool.consumer_seq = 0 ∧
    (texture_gl_populate_texture freshPool pollA).2.width = 640 ∧
    (texture_gl_populate_texture freshPool pollA).2.height = 360 ∧
    (texture_gl_populate_texture freshPool pollA).2.width ≠ 1 := by
  decide


/-! ## Claim C3 -/

/-- One consumer scan step in closed form: a slot whose sequence beats the
running best and whose fence check succeeds becomes the new best and loses
its fence; any other slot leaves the accumulator alone. -/
theorem poll_scan_step_char (o : PollOracle)
    (acc : (Fin 3 → RenderBuffer) × Option (Fin 3) × Nat) (i : Fin 3) :
    poll_scan_step o acc i =
      if acc.2.2 < (acc.1 i).seq ∧ poll_ready (acc.1 i) o = true
      then (Function.update acc.1 i { acc.1 i with render_sync := none },
            some i, (acc.1 i).seq)
      else acc := by
  unfold poll_scan_step poll_ready
  dsimp only
  cases hs : (acc.1 i).render_sync with
  | none =>
    have hb : ({ acc.1 i with render_sync := none } : RenderBuffer) = acc.1 i := by
      rw [← hs]
    simp only [hs]
    by_cases h1 : acc.2.2 < (acc.1 i).seq
    · simp [h1, hb, Function.update_eq_self]
    · simp [h1]
  | some f =>
    simp only [hs]
    by_cases h1 : acc.2.2 < (acc.1 i).seq
    · by_cases h2 : o.fence_done f = true
      · simp [h1, h2]
      · simp [h1, h2]
    · simp [h1]

set_option maxHeartbeats 3000000 in
/-- Full characterization of the consumer scan: the best sequence is the
largest among the slots that are newer than consumer_seq and whose fence
check succeeds; the reported index is such a slot, with its fence
destroyed; with no such slot the scan returns -1 and leaves everything
alone; fences whose poll times out are never destroyed, and a fence is
destroyed only on a completed newer slot. -/
theorem poll_scan_spec (bufs : Fin 3 → RenderBuffer) (cs : Nat) (o : PollOracle) :
    (((cs < (bufs 0).seq ∧ poll_ready (bufs 0) o = true) ∨
      (cs < (bufs 1).seq ∧ poll_ready (bufs 1) o = true) ∨
      (cs < (bufs 2).seq ∧ poll_ready (bufs 2) o = true)) →
      (((poll_scan bufs cs o).2.2 = (bufs 0).seq ∧ cs < (bufs 0).seq ∧ poll_ready (bufs 0) o = true) ∨
       ((poll_scan bufs cs o).2.2 = (bufs 1).seq ∧ cs < (bufs 1).seq ∧ poll_ready (bufs 1) o = true) ∨
       ((poll_scan bufs cs o).2.2 = (bufs 2).seq ∧ cs < (bufs 2).seq ∧ poll_ready (bufs 2) o = true))) ∧
    ((cs < (bufs 0).seq ∧ poll_ready (bufs 0) o = true) → (bufs 0).seq ≤ (poll_scan bufs cs o).2.2) ∧
    ((cs < (bufs 1).seq ∧ poll_ready (bufs 1) o = true) → (bufs 1).seq ≤ (poll_scan bufs cs o).2.2) ∧
    ((cs < (bufs 2).seq ∧ poll_ready (bufs 2) o = true) → (bufs 2).seq ≤ (poll_scan bufs cs o).2.2) ∧
    (¬ (((cs < (bufs 0).seq ∧ poll_ready (bufs 0) o = true) ∨
         (cs < (bufs 1).seq ∧ poll_ready (bufs 1) o = true) ∨
         (cs < (bufs 2).seq ∧ poll_ready (bufs 2) o = true))) →
       (poll_scan bufs cs o).2.1 = none ∧ (poll_scan bufs cs o).2.2 = cs ∧
       (poll_scan bufs cs o).1 = bufs) ∧
    (((cs < (bufs 0).seq ∧ poll_ready (bufs 0) o = true) ∨
      (cs < (bufs 1).seq ∧ poll_ready (bufs 1) o = true) ∨
      (cs < (bufs 2).seq ∧ poll_ready (bufs 2) o = true)) →
       (poll_scan bufs cs o).2.1 ≠ none) ∧
    ((poll_scan bufs cs o).2.1 = some 0 →
       (cs < (bufs 0).seq ∧ poll_ready (bufs 0) o = true) ∧
       (bufs 0).seq = (poll_scan bufs cs o).2.2 ∧
       ((poll_scan bufs cs o).1 0).render_sync = none) ∧
    ((poll_scan bufs cs o).2.1 = some 1 →
       (cs < (bufs 1).seq ∧ poll_ready (bufs 1) o = true) ∧
       (bufs 1).seq = (poll_scan bufs cs o).2.2 ∧
       ((poll_scan bufs cs o).1 1).render_sync = none) ∧
    ((poll_scan bufs cs o).2.1 = some 2 →
       (cs < (bufs 2).seq ∧ poll_ready (bufs 2) o = true) ∧
       (bufs 2).seq = (poll_scan bufs cs o).2.2 ∧
       ((poll_scan bufs cs o).1 2).render_sync = none) ∧
    (poll_ready (bufs 0) o = false →
       ((poll_scan bufs cs o).1 0).render_sync = (bufs 0).render_sync) ∧
    (poll_ready (bufs 1) o = false →
       ((poll_scan bufs cs o).1 1).render_sync = (bufs 1).render_sync) ∧
    (poll_ready (bufs 2) o = false →
       ((poll_scan bufs cs o).1 2).render_sync = (bufs 2).render_sync) ∧
    (((poll_scan bufs cs o).1 0).render_sync = none →
       ((bufs 0).render_sync = none ∨ (cs < (bufs 0).seq ∧ poll_ready (bufs 0) o = true))) ∧
    (((poll_scan bufs cs o).1 1).render_sync = none →
       ((bufs 1).render_sync = none ∨ (cs < (bufs 1).seq ∧ poll_ready (bufs 1) o = true))) ∧
    (((poll_scan bufs cs o).1 2).render_sync = none →
       ((bufs 2).render_sync = none ∨ (cs < (bufs 2).seq ∧ poll_ready (bufs 2) o = true))) := by
  unfold poll_scan
  simp only [poll_scan_step_char]
  split_ifs with h0 h1 h2 h3 h4 h5 h6 <;>
    refine ⟨?_, ?_, ?_, ?_, ?_, ?_, ?_, ?_, ?_, ?_, ?_, ?_, ?_, ?_, ?_⟩ <;>
    intros <;>
    simp_all [Function.update_noteq, Function.update_same] <;>
    try omega
  all_goals
    rename_i hcand
    rcases hcand with ⟨ha, hb⟩ | ⟨ha, hb⟩ | ⟨ha, hb⟩ <;> simp_all

set_option maxHeartbeats 3000000 in
/-- The accepted-slot fence characterization of the consumer scan: slot
i's fence is destroyed exactly when it is a candidate whose sequence beats
every earlier candidate's sequence (the scanned completed candidates);
every other slot keeps its fence untouched. -/
theorem poll_scan_accept (bufs : Fin 3 → RenderBuffer) (cs : Nat) (o : PollOracle) :
    (((cs < (bufs 0).seq ∧ poll_ready (bufs 0) o = true)) →
       ((poll_scan bufs cs o).1 0).render_sync = none) ∧
    (¬ ((cs < (bufs 0).seq ∧ poll_ready (bufs 0) o = true)) →
       ((poll_scan bufs cs o).1 0).render_sync = (bufs 0).render_sync) ∧
    (((cs < (bufs 1).seq ∧ poll_ready (bufs 1) o = true) ∧
      ((cs < (bufs 0).seq ∧ poll_ready (bufs 0) o = true) → (bufs 0).seq < (bufs 1).seq)) →
       ((poll_scan bufs cs o).1 1).render_sync = none) ∧
    (¬ ((cs < (bufs 1).seq ∧ poll_ready (bufs 1) o = true) ∧
        ((cs < (bufs 0).seq ∧ poll_ready (bufs 0) o = true) → (bufs 0).seq < (bufs 1).seq)) →
       ((poll_scan bufs cs o).1 1).render_sync = (bufs 1).render_sync) ∧
    (((cs < (bufs 2).seq ∧ poll_ready (bufs 2) o = true) ∧
      ((cs < (bufs 0).seq ∧ poll_ready (bufs 0) o = true) → (bufs 0).seq < (bufs 2).seq) ∧
      ((cs < (bufs 1).seq ∧ poll_ready (bufs 1) o = true) → (bufs 1).seq < (bufs 2).seq)) →
       ((poll_scan bufs cs o).1 2).render_sync = none) ∧
    (¬ ((cs < (bufs 2).seq ∧ poll_ready (bufs 2) o = true) ∧
        ((cs < (bufs 0).seq ∧ poll_ready (bufs 0) o = true) → (bufs 0).seq < (bufs 2).seq) ∧
        ((cs < (bufs 1).seq ∧ poll_ready (bufs 1) o = true) → (bufs 1).seq < (bufs 2).seq)) →
       ((poll_scan bufs cs o).1 2).render_sync = (bufs 2).render_sync) := by
  unfold poll_scan
  simp only [poll_scan_step_char]
  split_ifs with h0 h1 h2 h3 h4 h5 h6 <;>
    refine ⟨?_, ?_, ?_, ?_, ?_, ?_⟩ <;>
    intros <;>
    simp_all [Function.update_noteq, Function.update_same] <;>
    try omega
  all_goals
    by_cases r0 : poll_ready (bufs 0) o = true <;>
    by_cases r1 : poll_ready (bufs 1) o = true <;>
    by_cases r2 : poll_ready (bufs 2) o = true <;>
    simp_all <;>
    omega

/-- Characterization of the fallback display scan: its value bounds every
slot sequence, is 0 exactly when it finds nothing, and equals the sequence
of the reported slot. -/
theorem display_scan_spec (bufs : Fin 3 → RenderBuffer) :
    ((bufs 0).seq ≤ (display_scan bufs).2) ∧
    ((bufs 1).seq ≤ (display_scan bufs).2) ∧
    ((bufs 2).seq ≤ (display_scan bufs).2) ∧
    ((display_scan bufs).1 = none → (display_scan bufs).2 = 0) ∧
    ((display_scan bufs).1 = some 0 → (display_scan bufs).2 = (bufs 0).seq) ∧
    ((display_scan bufs).1 = some 1 → (display_scan bufs).2 = (bufs 1).seq) ∧
    ((display_scan bufs).1 = some 2 → (display_scan bufs).2 = (bufs 2).seq) := by
  unfold display_scan display_max_step
  dsimp only
  split_ifs <;> refine ⟨?_, ?_, ?_, ?_, ?_, ?_, ?_⟩ <;> intros <;> simp_all <;> omega

theorem populate_body_buffers (s1 : TextureGL) (o : PollOracle) :
    (populate_body s1 o).1.buffers = (poll_scan s1.buffers s1.consumer_seq o).1 := rfl

theorem populate_body_consumer (s1 : TextureGL) (o : PollOracle) :
    (populate_body s1 o).1.consumer_seq =
      (if (poll_scan s1.buffers s1.consumer_seq o).2.1.isSome
       then (poll_scan s1.buffers s1.consumer_seq o).2.2 else s1.consumer_seq) := rfl

theorem populate_body_display (s1 : TextureGL) (o : PollOracle) :
    (populate_body s1 o).1.display_seq =
      (if 0 < ((poll_scan s1.buffers s1.consumer_seq o).1 (body_display_idx s1 o)).seq
       then ((poll_scan s1.buffers s1.consumer_seq o).1 (body_display_idx s1 o)).seq
       else s1.display_seq) := rfl

/-- Consumer-selection behavior of populate_body: with candidates present
the new consumer_seq is the largest candidate sequence, published into
display_seq, and the winning candidate loses its fence; with none,
consumer_seq is kept and the slot with the largest nonzero sequence stays
on display; fences whose poll timed out survive, and only completed
candidates lose fences.  Moreover the destroyed fences are exactly those
of the scanned completed candidates (poll_accepted): every accepted slot
loses its fence and every other slot keeps it. -/
theorem populate_body_consumer_spec (s1 : TextureGL) (o : PollOracle) :
    ((∃ i, poll_cand s1 o i) →
       (∃ i, poll_cand s1 o i ∧
          (s1.buffers i).seq = (populate_body s1 o).1.consumer_seq ∧
          ((populate_body s1 o).1.buffers i).render_sync = none) ∧
       (∀ i, poll_cand s1 o i →
          (s1.buffers i).seq ≤ (populate_body s1 o).1.consumer_seq) ∧
       (populate_body s1 o).1.display_seq = (populate_body s1 o).1.consumer_seq) ∧
    ((¬ ∃ i, poll_cand s1 o i) →
       (populate_body s1 o).1.consumer_seq = s1.consumer_seq ∧
       ((∃ j, 0 < (s1.buffers j).seq) →
          (∃ j, (s1.buffers j).seq = (populate_body s1 o).1.display_seq) ∧
          (∀ j, (s1.buffers j).seq ≤ (populate_body s1 o).1.display_seq)) ∧
       ((∀ j, (s1.buffers j).seq = 0) →
          (populate_body s1 o).1.display_seq = s1.display_seq)) ∧
    (∀ i, poll_ready (s1.buffers i) o = false →
       ((populate_body s1 o).1.buffers i).render_sync = (s1.buffers i).render_sync) ∧
    (∀ i, ((populate_body s1 o).1.buffers i).render_sync = none →
       (s1.buffers i).render_sync = none ∨ poll_cand s1 o i) ∧
    (∀ i, poll_accepted s1 o i →
       ((populate_body s1 o).1.buffers i).render_sync = none) ∧
    (∀ i, ¬ poll_accepted s1 o i →
       ((populate_body s1 o).1.buffers i).render_sync = (s1.buffers i).render_sync) := by
  obtain ⟨hmax, hB0, hB1, hB2, hN, hS, h60, h61, h62, hp0, hp1, hp2, hd0, hd1, hd2⟩ :=
    poll_scan_spec s1.buffers s1.consumer_seq o
  obtain ⟨ha0, hn0, ha1, hn1, ha2, hn2⟩ := poll_scan_accept s1.buffers s1.consumer_seq o
  have hAcc : ∀ i, poll_accepted s1 o i →
      ((populate_body s1 o).1.buffers i).render_sync = none := by
    intro i hi
    rw [populate_body_buffers]
    fin_cases i
    · exact ha0 hi.1
    · exact ha1 ⟨hi.1, fun hc0 => hi.2 0 (by decide) hc0⟩
    · exact ha2 ⟨hi.1, fun hc0 => hi.2 0 (by decide) hc0, fun hc1 => hi.2 1 (by decide) hc1⟩
  have hNAcc : ∀ i, ¬ poll_accepted s1 o i →
      ((populate_body s1 o).1.buffers i).render_sync = (s1.buffers i).render_sync := by
    intro i hi
    rw [populate_body_buffers]
    fin_cases i
    · refine hn0 (fun hc0 => hi ⟨hc0, fun j hj _ => ?_⟩)
      exact absurd hj (by fin_cases j <;> decide)
    · refine hn1 (fun hacc1 => hi ⟨hacc1.1, fun j hj hcj => ?_⟩)
      fin_cases j
      · exact hacc1.2 hcj
      · exact absurd hj (by decide)
      · exact absurd hj (by decide)
    · refine hn2 (fun hacc2 => hi ⟨hacc2.1, fun j hj hcj => ?_⟩)
      fin_cases j
      · exact hacc2.2.1 hcj
      · exact hacc2.2.2 hcj
      · exact absurd hj (by decide)
  have hseq : ∀ j, ((poll_scan s1.buffers s1.consumer_seq o).1 j).seq = (s1.buffers j).seq :=
    poll_scan_seq s1.buffers s1.consumer_seq o
  have hcand_iff : (∃ i, poll_cand s1 o i) ↔
      ((s1.consumer_seq < (s1.buffers 0).seq ∧ poll_ready (s1.buffers 0) o = true) ∨
       (s1.consumer_seq < (s1.buffers 1).seq ∧ poll_ready (s1.buffers 1) o = true) ∨
       (s1.consumer_seq < (s1.buffers 2).seq ∧ poll_ready (s1.buffers 2) o = true)) := by
    constructor
    · rintro ⟨i, hi⟩
      fin_cases i
      · exact Or.inl hi
      · exact Or.inr (Or.inl hi)
      · exact Or.inr (Or.inr hi)
    · rintro (h | h | h)
      exacts [⟨0, h⟩, ⟨1, h⟩, ⟨2, h⟩]
  rcases hcase : (poll_scan s1.buffers s1.consumer_seq o).2.1 with _ | k
  · -- no winner: no candidate existed
    have hnd : ¬ ((s1.consumer_seq < (s1.buffers 0).seq ∧ poll_ready (s1.buffers 0) o = true) ∨
        (s1.consumer_seq < (s1.buffers 1).seq ∧ poll_ready (s1.buffers 1) o = true) ∨
        (s1.consumer_seq < (s1.buffers 2).seq ∧ poll_ready (s1.buffers 2) o = true)) :=
      fun hc => (hS hc) hcase
    obtain ⟨-, -, hbufeq⟩ := hN hnd
    have hconsumer : (populate_body s1 o).1.consumer_seq = s1.consumer_seq := by
      rw [populate_body_consumer, hcase]
      rfl
    have hidx : body_display_idx s1 o =
        (display_scan (poll_scan s1.buffers s1.consumer_seq o).1).1.getD 0 := by
      unfold body_display_idx
      rw [hcase]
    obtain ⟨hm0, hm1, hm2, hdn, hdm0, hdm1, hdm2⟩ := display_scan_spec s1.buffers
    have hdisp := populate_body_display s1 o
    rw [hidx, hbufeq] at hdisp
    refine ⟨fun hc => absurd (hcand_iff.mp hc) hnd,
            fun _ => ⟨hconsumer, ?_, ?_⟩,
            fun i hf => ?_, fun i hn => ?_, hAcc, hNAcc⟩
    · rintro ⟨j, hj⟩
      rcases hdm : (display_scan s1.buffers).1 with _ | m
      · exfalso
        have h0 := hdn hdm
        have hj2 : (s1.buffers j).seq ≤ (display_scan s1.buffers).2 := by
          fin_cases j
          exacts [hm0, hm1, hm2]
        omega
      · have hval : (display_scan s1.buffers).2 = (s1.buffers m).seq := by
          fin_cases m
          exacts [hdm0 hdm, hdm1 hdm, hdm2 hdm]
        rw [hdm] at hdisp
        simp only [Option.getD_some] at hdisp
        have hjle : (s1.buffers j).seq ≤ (s1.buffers m).seq := by
          rw [← hval]
          fin_cases j
          exacts [hm0, hm1, hm2]
        rw [if_pos (by omega)] at hdisp
        refine ⟨⟨m, hdisp.symm⟩, fun j2 => ?_⟩
        rw [hdisp, ← hval]
        fin_cases j2
        exacts [hm0, hm1, hm2]
    · intro hz
      rcases hdm : (display_scan s1.buffers).1 with _ | m
      · rw [hdm] at hdisp
        simp only [Option.getD_none] at hdisp
        rw [if_neg (by rw [hz 0]; omega)] at hdisp
        exact hdisp
      · rw [hdm] at hdisp
        simp only [Option.getD_some] at hdisp
        rw [if_neg (by rw [hz m]; omega)] at hdisp
        exact hdisp
    · rw [populate_body_buffers, hbufeq]
    · rw [populate_body_buffers, hbufeq] at hn
      exact Or.inl hn
  · -- winner k
    have hk : poll_cand s1 o k ∧
        (s1.buffers k).seq = (poll_scan s1.buffers s1.consumer_seq o).2.2 ∧
        ((poll_scan s1.buffers s1.consumer_seq o).1 k).render_sync = none := by
      fin_cases k
      exacts [h60 hcase, h61 hcase, h62 hcase]
    obtain ⟨hkc, hkseq, hksync⟩ := hk
    have hconsumer : (populate_body s1 o).1.consumer_seq =
        (poll_scan s1.buffers s1.consumer_seq o).2.2 := by
      rw [populate_body_consumer, hcase]
      rfl
    have hidx : body_display_idx s1 o = k := by
      unfold body_display_idx
      rw [hcase]
      rfl
    have hdisp : (populate_body s1 o).1.display_seq =
        (poll_scan s1.buffers s1.consumer_seq o).2.2 := by
      rw [populate_body_display, hidx, hseq k, if_pos ?hpos]
      case hpos =>
        have := hkc.1
        omega
      exact hkseq
    refine ⟨fun _ => ⟨⟨k, hkc, ?_, ?_⟩, fun i hi => ?_, ?_⟩,
            fun hnc => absurd ⟨k, hkc⟩ hnc,
            fun i hf => ?_, fun i hn => ?_, hAcc, hNAcc⟩
    · rw [hconsumer]
      exact hkseq
    · rw [populate_body_buffers]
      exact hksync
    · rw [hconsumer]
      fin_cases i
      exacts [hB0 hi, hB1 hi, hB2 hi]
    · rw [hdisp, hconsumer]
    · rw [populate_body_buffers]
      fin_cases i
      exacts [hp0 hf, hp1 hf, hp2 hf]
    · rw [populate_body_buffers] at hn
      fin_cases i
      exacts [hd0 hn, hd1 hn, hd2 hn]

/-- The first-call initialization trigger touches no consumer-visible
field. -/
theorem populate_post_init_fields (s : TextureGL) (o : PollOracle) :
    (populate_post_init s o).buffers = s.buffers ∧
    (populate_post_init s o).consumer_seq = s.consumer_seq ∧
    (populate_post_init s o).display_seq = s.display_seq ∧
    (populate_post_init s o).resizing = s.resizing := by
  unfold populate_post_init
  split_ifs <;> exact ⟨rfl, rfl, rfl, rfl⟩

/-- C3: Consumer selection (not during resize).  Among the slots with seq
strictly above consumer_seq whose zero-timeout fence poll does not time
out (or that have no fence), the poll picks the one with the largest seq,
sets consumer_seq to it and publishes it to display_seq; if no such slot
exists, consumer_seq is unchanged and the slot with the largest nonzero
seq is kept on display.  The fence of every completed candidate the loop
scans - every poll_accepted slot, i.e. every candidate whose sequence
beats all earlier candidates - is destroyed, every other slot keeps its
fence: in particular a timed-out fence is never destroyed and a destroyed
fence always belonged to a completed candidate. -/
theorem c3_consumer_selection (s : TextureGL) (o : PollOracle)
    (hr : s.resizing = false) :
    ((∃ i, poll_cand s o i) →
       (∃ i, poll_cand s o i ∧
          (s.buffers i).seq = (texture_gl_populate_texture s o).1.consumer_seq ∧
          ((texture_gl_populate_texture s o).1.buffers i).render_sync = none) ∧
       (∀ i, poll_cand s o i →
          (s.buffers i).seq ≤ (texture_gl_populate_texture s o).1.consumer_seq) ∧
       (texture_gl_populate_texture s o).1.display_seq =
         (texture_gl_populate_texture s o).1.consumer_seq) ∧
    ((¬ ∃ i, poll_cand s o i) →
       (texture_gl_populate_texture s o).1.consumer_seq = s.consumer_seq ∧
       ((∃ j, 0 < (s.buffers j).seq) →
          (∃ j, (s.buffers j).seq = (texture_gl_populate_texture s o).1.display_seq) ∧
          (∀ j, (s.buffers j).seq ≤ (texture_gl_populate_texture s o).1.display_seq)) ∧
       ((∀ j, (s.buffers j).seq = 0) →
          (texture_gl_populate_texture s o).1.display_seq = s.display_seq)) ∧
    (∀ i, poll_ready (s.buffers i) o = false →
       ((texture_gl_populate_texture s o).1.buffers i).render_sync = (s.buffers i).render_sync) ∧
    (∀ i, ((texture_gl_populate_texture s o).1.buffers i).render_sync = none →
       (s.buffers i).render_sync = none ∨ poll_cand s o i) ∧
    (∀ i, poll_accepted s o i →
       ((texture_gl_populate_texture s o).1.buffers i).render_sync = none) ∧
    (∀ i, ¬ poll_accepted s o i →
       ((texture_gl_populate_texture s o).1.buffers i).render_sync = (s.buffers i).render_sync) := by
  obtain ⟨hb, hc, hd, hres⟩ := populate_post_init_fields s o
  have heq : texture_gl_populate_texture s o = populate_body (populate_post_init s o) o := by
    unfold texture_gl_populate_texture
    dsimp only
    rw [if_neg (show ¬ ((populate_post_init s o).resizing = true) by
      rw [hres, hr]
      exact Bool.false_ne_true)]
  have hpc : ∀ i, poll_cand (populate_post_init s o) o i ↔ poll_cand s o i := by
    intro i
    unfold poll_cand
    rw [hb, hc]
  have hpa : ∀ i, poll_accepted (populate_post_init s o) o i ↔ poll_accepted s o i := by
    intro i
    unfold poll_accepted
    simp only [hpc, hb]
  have hspec := populate_body_consumer_spec (populate_post_init s o) o
  rw [heq]
  simp only [hb, hc, hd, hpc, hpa] at hspec
  exact hspec

/-- Witness for C3 at two concrete polls.  At scanDemoState slot 0 (seq 3,
fence signaled) is the only candidate - slot 1 holds seq 5 behind a
pending fence - and the poll picks it.  At ascDemoState the scan meets
ascending completed frames 5 then 10, accepts both in turn, and destroys
both of their fences. -/
theorem c3_consumer_selection_witness :
    (∃ i, poll_cand scanDemoState pollB i ∧
      (scanDemoState.buffers i).seq =
        (texture_gl_populate_texture scanDemoState pollB).1.consumer_seq ∧
      ((texture_gl_populate_texture scanDemoState pollB).1.buffers i).render_sync = none) ∧
    ((texture_gl_populate_texture ascDemoState pollC).1.buffers 0).render_sync = none ∧
    ((texture_gl_populate_texture ascDemoState pollC).1.buffers 1).render_sync = none :=
  ⟨((c3_consumer_selection scanDemoState pollB (by decide)).1 (by decide)).1,
   (c3_consumer_selection ascDemoState pollC (by decide)).2.2.2.2.1 0 (by decide),
   (c3_consumer_selection ascDemoState pollC (by decide)).2.2.2.2.1 1 (by decide)⟩


end MediaKit
